import Mathlib

/-
Verification of the simplerelic metric-aggregation library (Go).

Embedded source: the snapshot-ledger generation of metrics.go
(src/unnamed/part_000, second half, lines 288-632) and the dispatch loop of
reporter.go.  Modelling choices, all discussed at the definition they affect:

* Go maps become association lists with Go map semantics: lookup of an absent
  key returns the zero value (`GoMap.lookD` with an explicit default),
  assignment inserts or updates (`GoMap.set`).  Iteration order of a Go map is
  unspecified; every iteration in the embedded code either sums with a
  commutative operation or writes distinct keys, so a fixed list order is
  faithful.
* float32 becomes ℚ.  Every value appearing in the verified claims is a sum of
  small integers or a quotient such as 1/4 — exactly representable in float32,
  so no rounding behaviour is lost.
* Metric names `<namePrefix><endpoint><metricUnit>` and
  `<namePrefixOverall><metricUnit>` become the structured key type `MName`.
  The rendering into strings is injective: the per-endpoint prefixes
  ("Component/ReqPerEndpoint/", "Component/ErrorRatePerEndpoint/",
  "Component/ResponseTimePerEndpoint/") differ pairwise and from the overall
  prefixes ("Component/Req/overall", "Component/ErrorRate/overall",
  "Component/ResponseTime/overall"), and for a fixed prefix/unit the endpoint
  is recovered by stripping them, so distinct structured keys always render to
  distinct strings.
* The wall-clock computation of ResponseTimePerEndpoint.Update
  (`float32(time.Since(startTime)) / float32(time.Millisecond)`) is modelled by
  passing the elapsed duration in milliseconds directly as the request
  attribute; the claims under verification concern aggregation, not clock
  reading.
* A Go run-time panic (failed type assertion on a missing attribute) is the
  `UpdateResult.fatal` outcome, distinct from an `error` return
  (`UpdateResult.err`).
-/

namespace SimpleRelic

namespace GoMap

variable {κ β : Type} [DecidableEq κ]

/-- Go map lookup: the value stored at `k`, or the zero value `d` when the key
is absent.  Duplicate keys never arise from the operations below; lookup takes
the first occurrence. -/
def lookD : List (κ × β) → κ → β → β
  | [], _, d => d
  | p :: rest, k, d => if p.1 = k then p.2 else lookD rest k d

/-- Go map assignment `m[k] = v`: update the existing entry or insert a new
one. -/
def set : List (κ × β) → κ → β → List (κ × β)
  | [], k, v => [(k, v)]
  | p :: rest, k, v => if p.1 = k then (k, v) :: rest else p :: set rest k v

/-- The keys of a Go map. -/
def keys (m : List (κ × β)) : List κ := m.map Prod.fst

end GoMap

/-- The sentinel endpoint identifier (`unknownEndpoint` constant in the
source). -/
def unknownEndpoint : String := "other"

/-- The three metric kinds shipped with the library. -/
inductive MetricKind where
  | req
  | errorRate
  | responseTime
deriving DecidableEq

/-- Structured metric name, standing for the strings
`<namePrefix><endpoint><metricUnit>` (per-endpoint entry) and
`<namePrefixOverall><metricUnit>` (aggregate entry); see the header comment for
why this is faithful. -/
inductive MName where
  | perEndpoint (kind : MetricKind) (endpoint : String)
  | overall (kind : MetricKind)
deriving DecidableEq

/-- Accumulator map: endpoint identifier to integer count. -/
abbrev EPMap := List (String × Nat)

/-- Export mapping: metric name to float value. -/
abbrev ExpMap := List (MName × ℚ)

/-- The request-attribute bag `map[string]interface{}`, restricted to the keys
the three metrics read.  A present entry of the wrong dynamic type behaves like
an absent one as far as these claims are concerned (both make the `statusCode`
type assertion panic); only presence is modelled. -/
structure Params where
  endpointName : Option String
  statusCode : Option Int
  reqStartElapsedMs : Option ℚ
deriving DecidableEq

/-- The error message of `ResponseTimePerEndpoint.Update` (part_000:575). -/
def errMissingStartTime : String := "reqStart time should be time.Time"

/-- Endpoint name used by the repository's tests. -/
def epLog : String := "log"

/-- An endpoint name with only successful requests, for counterexamples. -/
def epX : String := "x"

/-- An endpoint name with an error request, for counterexamples. -/
def epY : String := "y"

/-- A further endpoint name, distinct from the ones above. -/
def epA : String := "a"

/-- A never-seen-before endpoint name, for first-use bucket creation. -/
def epLogin : String := "login"

/-- `MetricBase.endpointName` (part_000:330-337): an absent `endpointName`
attribute resolves to the sentinel `"other"`. -/
def resolveEndpoint : Option String → String
  | none => unknownEndpoint
  | some e => e

/-- Outcome of an `Update` call.  `ok`/`err` are the two values of the Go
`error` return; `fatal` is a run-time panic (failed type assertion).  Each
constructor carries the metric state after the call. -/
inductive UpdateResult (α : Type) where
  | ok : α → UpdateResult α
  | err : String → α → UpdateResult α
  | fatal : α → UpdateResult α
deriving DecidableEq

/-! ### ReqPerEndpoint (part_000:343-421)

`doSnapshot` hands the live `numReq` map over to the snapshot and replaces the
field with a freshly allocated map, so these snapshots really are frozen: no
later operation reaches the old map.  The ledger is therefore a list of
independent maps. -/

structure ReqPerEndpoint where
  numReq : EPMap
  snapshots : List EPMap
deriving DecidableEq

/-- `NewReqPerEndpoint` (part_000:356-374): `metric.endpoints` is never
assigned, so the initialisation loop over it does nothing and only the
`"other"` bucket is created. -/
def newReqPerEndpoint : ReqPerEndpoint :=
  { numReq := [(unknownEndpoint, 0)], snapshots := [] }

/-- State change of `ReqPerEndpoint.Update` (part_000:377-384) for the
resolved endpoint name. -/
def ReqPerEndpoint.updateState (s : ReqPerEndpoint) (e : String) : ReqPerEndpoint :=
  { s with numReq := GoMap.set s.numReq e (GoMap.lookD s.numReq e 0 + 1) }

/-- `ReqPerEndpoint.Update` always returns nil. -/
def ReqPerEndpoint.update (s : ReqPerEndpoint) (p : Params) : UpdateResult ReqPerEndpoint :=
  .ok (s.updateState (resolveEndpoint p.endpointName))

/-- `ReqPerEndpoint.doSnapshot` (part_000:386-392): append the live map to the
ledger, replace the live map by a fresh empty one (note: without the `"other"`
key the constructor installed). -/
def ReqPerEndpoint.doSnapshot (s : ReqPerEndpoint) : ReqPerEndpoint :=
  { numReq := [], snapshots := s.snapshots ++ [s.numReq] }

/-- `ReqPerEndpoint.ValueMap` (part_000:395-416): snapshot, then sum every
retained snapshot into the export mapping (`reqCount[metricName] += value`),
count the grand total, and write the overall entry.  The second
`m.numReq = make(map[string]int)` of the source re-clears an already fresh
map. -/
def ReqPerEndpoint.valueMap (s : ReqPerEndpoint) : ExpMap × ReqPerEndpoint :=
  let s' := s.doSnapshot
  let merged := s'.snapshots.foldl
    (fun acc snap => snap.foldl
      (fun acc2 p => GoMap.set acc2 (MName.perEndpoint .req p.1)
        (GoMap.lookD acc2 (MName.perEndpoint .req p.1) 0 + (p.2 : ℚ))) acc) []
  let total : Nat := (s'.snapshots.map (fun snap => (snap.map Prod.snd).sum)).sum
  (GoMap.set merged (MName.overall .req) (total : ℚ), s')

/-- `ReqPerEndpoint.Clear` (part_000:419-421). -/
def ReqPerEndpoint.clear (s : ReqPerEndpoint) : ReqPerEndpoint :=
  { s with snapshots := [] }

/-! ### ErrorRatePerEndpoint (part_000:428-536)

Aliasing, the load-bearing detail of this embedding: `doSnapshot`
(part_000:481-491) appends `&ErrorRatePerEndpointSnapshot{numReq: m.numReq,
errorCount: m.errorCount}` — Go map values are references, so the snapshot
holds the *same* map objects as the live metric — and then calls `m.init()`
(part_000:459-466), which mutates those same maps in place: it writes zero to
every key of `m.endpoints` (never assigned, hence nil, hence no keys) and to
`unknownEndpoint`.  Neither `m.numReq` nor `m.errorCount` is ever reassigned
after the constructor, so *every* retained snapshot aliases the one live map
pair for the metric's whole lifetime.  Consequently the ledger is fully
described by the live maps plus the number of retained snapshots, which is how
the state is represented here; `retainedSnapshots` below materialises the
ledger's contents. -/

structure ErrorRatePerEndpoint where
  numReq : EPMap
  errorCount : EPMap
  snapCount : Nat
deriving DecidableEq

/-- `NewErrorRatePerEndpoint` (part_000:442-457) followed by `init`: only the
`"other"` buckets exist at construction. -/
def newErrorRatePerEndpoint : ErrorRatePerEndpoint :=
  { numReq := [(unknownEndpoint, 0)], errorCount := [(unknownEndpoint, 0)], snapCount := 0 }

/-- State change of `ErrorRatePerEndpoint.Update` (part_000:469-479) when the
status code is present: increment the error count iff the code is ≥ 400, and
always increment the request count, both for the resolved endpoint. -/
def ErrorRatePerEndpoint.updateState (s : ErrorRatePerEndpoint) (e : String) (c : Int) :
    ErrorRatePerEndpoint :=
  { s with
    errorCount :=
      if 400 ≤ c then GoMap.set s.errorCount e (GoMap.lookD s.errorCount e 0 + 1)
      else s.errorCount,
    numReq := GoMap.set s.numReq e (GoMap.lookD s.numReq e 0 + 1) }

/-- `ErrorRatePerEndpoint.Update`: `params["statusCode"].(int)` is an
unchecked type assertion, so an absent status code is a run-time panic, not an
error return.  The panic fires before any map is written, so the state is
unchanged. -/
def ErrorRatePerEndpoint.update (s : ErrorRatePerEndpoint) (p : Params) :
    UpdateResult ErrorRatePerEndpoint :=
  match p.statusCode with
  | none => .fatal s
  | some c => .ok (s.updateState (resolveEndpoint p.endpointName) c)

/-- `ErrorRatePerEndpoint.doSnapshot` (part_000:481-491): one more retained
snapshot (aliasing the live maps, see above), then `init` zeroes the `"other"`
keys of the live maps in place.  Keys created dynamically by `Update` are not
touched. -/
def ErrorRatePerEndpoint.doSnapshot (s : ErrorRatePerEndpoint) : ErrorRatePerEndpoint :=
  { numReq := GoMap.set s.numReq unknownEndpoint 0,
    errorCount := GoMap.set s.errorCount unknownEndpoint 0,
    snapCount := s.snapCount + 1 }

/-- The contents of the snapshot ledger: every retained snapshot aliases the
live `(numReq, errorCount)` pair. -/
def ErrorRatePerEndpoint.retainedSnapshots (s : ErrorRatePerEndpoint) : List (EPMap × EPMap) :=
  List.replicate s.snapCount (s.numReq, s.errorCount)

/-- `ErrorRatePerEndpoint.Clear` (part_000:534-536): drop the snapshot slice.
The live maps (which the dropped snapshots aliased) are untouched. -/
def ErrorRatePerEndpoint.clear (s : ErrorRatePerEndpoint) : ErrorRatePerEndpoint :=
  { s with snapCount := 0 }

/-- Per-endpoint value computed by `ErrorRatePerEndpoint.ValueMap`
(part_000:494-531): the summed error count over the summed request count of
the retained snapshots, zero-guarded.  Because all retained snapshots alias
the live maps, summing a field over the ledger is `snapCount * ` the live
value (proved below as `summedRetainedErr_eq`/`summedRetainedReq_eq`). -/
def ErrorRatePerEndpoint.rateAt (s' : ErrorRatePerEndpoint) (e : String) : ℚ :=
  let req := s'.snapCount * GoMap.lookD s'.numReq e 0
  let er := s'.snapCount * GoMap.lookD s'.errorCount e 0
  if 0 < req then (er : ℚ) / (req : ℚ) else 0

/-- `ErrorRatePerEndpoint.ValueMap` (part_000:494-531): snapshot, sum the
ledger per endpoint, then iterate over the keys of the summed error-count map
(which, one snapshot being retained at least, are exactly the keys of the live
`errorCount` map) writing per-endpoint entries and accumulating the overall
numerator and denominator.  Note the overall request total ranges over the
error-count keys only. -/
def ErrorRatePerEndpoint.valueMap (s : ErrorRatePerEndpoint) : ExpMap × ErrorRatePerEndpoint :=
  let s' := s.doSnapshot
  let eks := GoMap.keys s'.errorCount
  let entries := s'.errorCount.map (fun p => (MName.perEndpoint .errorRate p.1, s'.rateAt p.1))
  let errOverall := (eks.map (fun e => s'.snapCount * GoMap.lookD s'.errorCount e 0)).sum
  let reqOverall := (eks.map (fun e => s'.snapCount * GoMap.lookD s'.numReq e 0)).sum
  let overallV : ℚ := if 0 < reqOverall then (errOverall : ℚ) / (reqOverall : ℚ) else 0
  (entries ++ [(MName.overall .errorRate, overallV)], s')

/-- Sum of one endpoint's error count over all retained snapshots — the
quantity the spec calls "summed retained errorCount". -/
def summedRetainedErr (s : ErrorRatePerEndpoint) (e : String) : Nat :=
  ((s.retainedSnapshots).map (fun q => GoMap.lookD q.2 e 0)).sum

/-- Sum of one endpoint's request count over all retained snapshots. -/
def summedRetainedReq (s : ErrorRatePerEndpoint) (e : String) : Nat :=
  ((s.retainedSnapshots).map (fun q => GoMap.lookD q.1 e 0)).sum

/-- Total retained errors over the endpoints the export loop visits (the keys
of the error-count map). -/
def overallErrTotal (s : ErrorRatePerEndpoint) : Nat :=
  ((GoMap.keys s.errorCount).map (fun e => summedRetainedErr s e)).sum

/-- Total retained requests over the endpoints the export loop visits (the
keys of the error-count map — endpoints without an error-count entry are
skipped). -/
def overallReqOnErrKeys (s : ErrorRatePerEndpoint) : Nat :=
  ((GoMap.keys s.errorCount).map (fun e => summedRetainedReq s e)).sum

/-! ### ResponseTimePerEndpoint (part_000:543-632)

This metric was never moved to the snapshot ledger: `ValueMap` zeroes the live
state in place and `Clear` is an empty function whose body — a snapshot-slice
reset — is commented out (part_000:630-632). -/

structure ResponseTimePerEndpoint where
  numReq : EPMap
  responseTimeMap : List (String × List ℚ)
deriving DecidableEq

/-- `NewResponseTimePerEndpoint` (part_000:550-568): `numReq` starts empty (no
initialisation loop runs for it); `responseTimeMap` gets the `"other"` bucket
holding `make([]float32, 1)`, a one-element all-zero slice. -/
def newResponseTimePerEndpoint : ResponseTimePerEndpoint :=
  { numReq := [], responseTimeMap := [(unknownEndpoint, [0])] }

/-- State change of `ResponseTimePerEndpoint.Update` (part_000:571-587) when
the start time is present: increment the request count and append the elapsed
milliseconds to the endpoint's slice (append to nil yields a fresh slice). -/
def ResponseTimePerEndpoint.updateState (s : ResponseTimePerEndpoint) (e : String) (d : ℚ) :
    ResponseTimePerEndpoint :=
  { numReq := GoMap.set s.numReq e (GoMap.lookD s.numReq e 0 + 1),
    responseTimeMap :=
      GoMap.set s.responseTimeMap e (GoMap.lookD s.responseTimeMap e [] ++ [d]) }

/-- `ResponseTimePerEndpoint.Update`: an absent start time is reported as an
error return, before any state is touched. -/
def ResponseTimePerEndpoint.update (s : ResponseTimePerEndpoint) (p : Params) :
    UpdateResult ResponseTimePerEndpoint :=
  match p.reqStartElapsedMs with
  | none => .err errMissingStartTime s
  | some d => .ok (s.updateState (resolveEndpoint p.endpointName) d)

/-- `ResponseTimePerEndpoint.ValueMap` (part_000:590-627): one pass over
`responseTimeMap` computing each endpoint's mean, then the overall mean;
afterwards every visited endpoint's request count is zeroed and its slice
reset to `make([]float32, 1)`.  No ledger: the pre-call state is destroyed. -/
def ResponseTimePerEndpoint.valueMap (s : ResponseTimePerEndpoint) :
    ExpMap × ResponseTimePerEndpoint :=
  let entries := s.responseTimeMap.map (fun p =>
    let n : Nat := GoMap.lookD s.numReq p.1 0
    (MName.perEndpoint .responseTime p.1, if 0 < n then p.2.sum / (n : ℚ) else 0))
  let totalTime : ℚ := (s.responseTimeMap.map (fun p => p.2.sum)).sum
  let totalReq : Nat := (s.responseTimeMap.map (fun p => GoMap.lookD s.numReq p.1 0)).sum
  let overallV : ℚ := if 0 < totalReq then totalTime / (totalReq : ℚ) else 0
  let numReq2 := s.responseTimeMap.foldl (fun m p => GoMap.set m p.1 0) s.numReq
  let rtm2 := s.responseTimeMap.map (fun p => (p.1, ([0] : List ℚ)))
  (entries ++ [(MName.overall .responseTime, overallV)],
   { numReq := numReq2, responseTimeMap := rtm2 })

/-- `ResponseTimePerEndpoint.Clear` (part_000:630-632): the body is commented
out; the function does nothing. -/
def ResponseTimePerEndpoint.clear (s : ResponseTimePerEndpoint) : ResponseTimePerEndpoint := s

/-! ### Reporter (reporter.go) -/

/-- The `AppMetric` interface values the reporter holds. -/
inductive AppMetric where
  | req : ReqPerEndpoint → AppMetric
  | errRate : ErrorRatePerEndpoint → AppMetric
  | respTime : ResponseTimePerEndpoint → AppMetric
deriving DecidableEq

/-- Dynamic dispatch of `ValueMap`. -/
def AppMetric.valueMap : AppMetric → ExpMap × AppMetric
  | .req s => ((s.valueMap).1, .req (s.valueMap).2)
  | .errRate s => ((s.valueMap).1, .errRate (s.valueMap).2)
  | .respTime s => ((s.valueMap).1, .respTime (s.valueMap).2)

/-- Dynamic dispatch of `Clear`. -/
def AppMetric.clear : AppMetric → AppMetric
  | .req s => .req s.clear
  | .errRate s => .errRate s.clear
  | .respTime s => .respTime s.clear

/-- One dispatch cycle, `Reporter.sendMetrics` + `Reporter.doRequest`
(reporter.go:135-162, 191-220): build a fresh payload, merge every metric's
`ValueMap` into it, POST it.  `doRequest` only logs — the HTTP status
(including a 2xx acknowledgment) influences nothing, and no code path invokes
`Clear`, which is why the returned metric states are the post-`ValueMap`
states for every value of `respStatus`. -/
def sendMetricsModel (metrics : List AppMetric) (respStatus : Nat) :
    ExpMap × List AppMetric :=
  let _ := respStatus
  metrics.foldl
    (fun (acc : ExpMap × List AppMetric) m =>
      let r := m.valueMap
      (r.1.foldl (fun pm p => GoMap.set pm p.1 p.2) acc.1, acc.2 ++ [r.2]))
    ([], [])

/-! ### Helper lemmas about the Go map model -/

namespace GoMap

variable {κ β : Type} [DecidableEq κ]

theorem lookD_set_self (m : List (κ × β)) (k : κ) (v d : β) :
    lookD (set m k v) k d = v := by
  induction m with
  | nil => simp [set, lookD]
  | cons p rest ih =>
      by_cases h : p.1 = k
      · simp [set, h, lookD]
      · simp [set, h, lookD, ih]

theorem lookD_set_ne (m : List (κ × β)) {k k' : κ} (v d : β) (h : k' ≠ k) :
    lookD (set m k v) k' d = lookD m k' d := by
  have hk : k ≠ k' := Ne.symm h
  induction m with
  | nil => simp [set, lookD, hk]
  | cons p rest ih =>
      by_cases hp : p.1 = k
      · subst hp
        simp [set, lookD, hk]
      · simp only [set, hp, if_false, lookD]
        by_cases hp' : p.1 = k'
        · simp [hp']
        · simp [hp', ih]

theorem mem_keys_set_self (m : List (κ × β)) (k : κ) (v : β) :
    k ∈ keys (set m k v) := by
  induction m with
  | nil => simp [set, keys]
  | cons p rest ih =>
      by_cases h : p.1 = k
      · simp [set, h, keys]
      · simp only [set, h, if_false, keys, List.map_cons, List.mem_cons]
        exact Or.inr ih

theorem lookD_of_not_mem {m : List (κ × β)} {k : κ} (d : β) (h : k ∉ keys m) :
    lookD m k d = d := by
  induction m with
  | nil => simp [lookD]
  | cons p rest ih =>
      simp only [keys, List.map_cons, List.mem_cons] at h
      push_neg at h
      have h1 : ¬ p.1 = k := fun hh => h.1 hh.symm
      simp only [lookD, h1, if_false]
      exact ih (by simp [keys, h.2])

omit [DecidableEq κ] in
theorem keys_append (A B : List (κ × β)) : keys (A ++ B) = keys A ++ keys B :=
  List.map_append Prod.fst A B

theorem lookD_append (A B : List (κ × β)) (k : κ) (d : β) :
    lookD (A ++ B) k d = if k ∈ keys A then lookD A k d else lookD B k d := by
  induction A with
  | nil => simp [keys, lookD]
  | cons p rest ih =>
      simp only [List.cons_append, lookD, keys, List.map_cons, List.mem_cons]
      by_cases h : p.1 = k
      · simp [h]
      · have h' : ¬ k = p.1 := fun hh => h hh.symm
        simp only [h, if_false, h', false_or]
        simpa [keys] using ih

end GoMap

/-- Looking a per-endpoint name up in the entry list that `ValueMap` builds by
mapping a key-determined value over an accumulator map: the first occurrence
of the endpoint decides, and the value depends on the key only. -/
theorem lookD_perEndpoint_map {α : Type} (l : List (String × α)) (f : String → ℚ)
    (kk : MetricKind) (e : String) :
    GoMap.lookD (l.map fun p => (MName.perEndpoint kk p.1, f p.1)) (MName.perEndpoint kk e) 0
      = if e ∈ GoMap.keys l then f e else 0 := by
  induction l with
  | nil => simp [GoMap.lookD, GoMap.keys]
  | cons p rest ih =>
      by_cases h : p.1 = e
      · simp [GoMap.lookD, GoMap.keys, h]
      · have h2 : ¬ e = p.1 := fun hh => h hh.symm
        simp only [List.map_cons, GoMap.lookD, MName.perEndpoint.injEq, h, and_false,
          if_false, ih, GoMap.keys, List.mem_cons, h2, false_or]

/-- The per-endpoint entry list never contains an overall name. -/
theorem overall_not_mem_perEndpoint_map {α : Type} (l : List (String × α)) (f : String → ℚ)
    (kk kk2 : MetricKind) :
    MName.overall kk2 ∉ GoMap.keys (l.map fun p => (MName.perEndpoint kk p.1, f p.1)) := by
  simp [GoMap.keys, List.mem_map]

/-- A per-endpoint name is in the keys of the built entry list iff the
endpoint is a key of the accumulator map. -/
theorem mem_keys_perEndpoint_map {α : Type} (l : List (String × α)) (f : String → ℚ)
    (kk : MetricKind) (e : String) :
    MName.perEndpoint kk e ∈ GoMap.keys (l.map fun p => (MName.perEndpoint kk p.1, f p.1))
      ↔ e ∈ GoMap.keys l := by
  simp [GoMap.keys, List.mem_map]

/-- Summing one endpoint's error count over the ledger collapses to the
snapshot count times the live value, because every retained snapshot aliases
the live maps. -/
theorem summedRetainedErr_eq (s : ErrorRatePerEndpoint) (e : String) :
    summedRetainedErr s e = s.snapCount * GoMap.lookD s.errorCount e 0 := by
  simp [summedRetainedErr, ErrorRatePerEndpoint.retainedSnapshots, List.map_replicate,
    List.sum_replicate, smul_eq_mul]

/-- Same collapse for the request counts. -/
theorem summedRetainedReq_eq (s : ErrorRatePerEndpoint) (e : String) :
    summedRetainedReq s e = s.snapCount * GoMap.lookD s.numReq e 0 := by
  simp [summedRetainedReq, ErrorRatePerEndpoint.retainedSnapshots, List.map_replicate,
    List.sum_replicate, smul_eq_mul]

/-! ### The claims -/

/-- C1: the cumulative-export property claims that for every metric kind a
second Export with no intervening Clear reports the union of all events since
the last Clear.  The code violates this for the response-time kind: its
`ValueMap` zeroes the live accumulator without keeping any snapshot (the
ledger refactor never reached it — its `Clear` body is commented out), so
after one Update of endpoint "log" with 10 ms elapsed, the first Export
reports 10 for "log" while an immediately following Export reports 0 instead
of the cumulative 10. -/
theorem c1_response_time_not_cumulative :
    GoMap.lookD ((newResponseTimePerEndpoint.updateState epLog 10).valueMap).1
        (MName.perEndpoint .responseTime epLog) 0 = 10 ∧
    GoMap.lookD (((newResponseTimePerEndpoint.updateState epLog 10).valueMap).2.valueMap).1
        (MName.perEndpoint .responseTime epLog) 0 = 0 := by
  norm_num +decide [newResponseTimePerEndpoint, ResponseTimePerEndpoint.updateState,
    ResponseTimePerEndpoint.valueMap, GoMap.set, GoMap.lookD, GoMap.keys,
    unknownEndpoint, epLog]

/-- C3: the Clear-resets property claims that after Clear the next Export
(with no intervening Update) yields 0 for every previously non-zero entry.
The code violates this for the error-rate kind: `doSnapshot` stores the live
maps by reference and `init` only zeroes the `"other"` key, so the counts of
endpoint "log" survive both the Export and the Clear — after Update("log",
404), Export (which reports 1.0 for "log"), Clear, the next Export still
reports 1.0 for "log" instead of 0. -/
theorem c3_clear_does_not_reset_error_rate :
    GoMap.lookD ((newErrorRatePerEndpoint.updateState epLog 404).valueMap).1
        (MName.perEndpoint .errorRate epLog) 0 = 1 ∧
    GoMap.lookD ((((newErrorRatePerEndpoint.updateState epLog 404).valueMap).2.clear).valueMap).1
        (MName.perEndpoint .errorRate epLog) 0 = 1 := by
  norm_num +decide [newErrorRatePerEndpoint, ErrorRatePerEndpoint.updateState,
    ErrorRatePerEndpoint.valueMap, ErrorRatePerEndpoint.doSnapshot,
    ErrorRatePerEndpoint.clear, ErrorRatePerEndpoint.rateAt, GoMap.set,
    GoMap.lookD, GoMap.keys, unknownEndpoint, epLog]

/-- C4: the snapshot-immutability invariant claims a retained snapshot's
contents always equal the accumulator state at the moment of extraction.  The
error-rate metric violates it: one Update without an endpoint attribute puts
the accumulator at numReq\["other"\] = 1, yet after the Export that extracted
it the single retained snapshot (which aliases the live maps) reads 0 there —
`init` zeroed it in place — and a later Update mutates the same retained
snapshot again to 1. -/
theorem c4_snapshot_mutated_after_extraction :
    GoMap.lookD (newErrorRatePerEndpoint.updateState (resolveEndpoint none) 404).numReq
        unknownEndpoint 0 = 1 ∧
    ((newErrorRatePerEndpoint.updateState (resolveEndpoint none) 404).valueMap).2.retainedSnapshots
      = [([(unknownEndpoint, 0)], [(unknownEndpoint, 0)])] ∧
    (((newErrorRatePerEndpoint.updateState (resolveEndpoint none) 404).valueMap).2.updateState
        (resolveEndpoint none) 200).retainedSnapshots
      = [([(unknownEndpoint, 1)], [(unknownEndpoint, 0)])] := by
  decide

/-- C5 counterexample: the claim says a structurally absent required attribute
makes Update return a recoverable failure.  For the error-rate metric an
absent `statusCode` instead aborts with a run-time panic (unchecked type
assertion `params["statusCode"].(int)`), i.e. the `fatal` outcome, not the
`err` outcome. -/
theorem c5_missing_status_code_is_unrecoverable :
    newErrorRatePerEndpoint.update ⟨some epLog, none, none⟩
      = UpdateResult.fatal newErrorRatePerEndpoint := rfl

/-- C5 amended: an absent start time makes the response-time metric's Update
return a recoverable error with the state unchanged (so the failed call
contributes nothing to later Exports); the request-count metric has no
required attribute; but an absent status code makes the error-rate metric's
Update fail unrecoverably (run-time panic), likewise with the state
unchanged. -/
theorem c5_amended_structural_input_errors (s : ResponseTimePerEndpoint)
    (t : ErrorRatePerEndpoint) (ep1 ep2 : Option String) (c? : Option Int) (d? : Option ℚ) :
    s.update ⟨ep1, c?, none⟩ = UpdateResult.err errMissingStartTime s ∧
    t.update ⟨ep2, none, d?⟩ = UpdateResult.fatal t :=
  ⟨rfl, rfl⟩

/-- C6: the concrete error-rate scenario of the spec (and of TestErrorRate):
Updates for endpoint "log" with status codes 404, 200, then Export, then 200,
200, then Export with no Clear in between — the second Export's value for
"log" is 1/4.  (Internally the code reaches it as 2/8: the aliased ledger
double-counts numerator and denominator alike.) -/
theorem c6_error_rate_concrete_scenario :
    GoMap.lookD
      ((((((newErrorRatePerEndpoint.updateState epLog 404).updateState epLog
          200).valueMap).2.updateState epLog 200).updateState epLog 200).valueMap).1
      (MName.perEndpoint .errorRate epLog) 0 = 1/4 := by
  norm_num +decide [newErrorRatePerEndpoint, ErrorRatePerEndpoint.updateState,
    ErrorRatePerEndpoint.valueMap, ErrorRatePerEndpoint.doSnapshot,
    ErrorRatePerEndpoint.rateAt, GoMap.set, GoMap.lookD, GoMap.keys,
    unknownEndpoint, epLog]

/-- C2: the claim says a confirmed 2xx delivery makes the reporter call Clear
on every exported metric, and only a failure leaves the retained snapshots in
place.  The reporter never calls Clear on any path: after a dispatch cycle
whose HTTP response is 200, a request-count metric holding one event still
retains its snapshot (first conjunct; had Clear run, the ledger would be
empty — second conjunct), and the next cycle re-exports the same event
(third conjunct). -/
theorem c2_reporter_never_clears :
    (sendMetricsModel [AppMetric.req (newReqPerEndpoint.updateState epLog)] 200).2
      = [AppMetric.req { numReq := [], snapshots := [[(unknownEndpoint, 0), (epLog, 1)]] }] ∧
    (sendMetricsModel [AppMetric.req (newReqPerEndpoint.updateState epLog)] 200).2.map
        AppMetric.clear
      = [AppMetric.req { numReq := [], snapshots := [] }] ∧
    GoMap.lookD
      (sendMetricsModel
        ((sendMetricsModel [AppMetric.req (newReqPerEndpoint.updateState epLog)] 200).2)
        200).1
      (MName.perEndpoint .req epLog) 0 = 1 := by
  refine ⟨by decide, by decide, ?_⟩
  norm_num +decide [sendMetricsModel, AppMetric.valueMap, newReqPerEndpoint,
    ReqPerEndpoint.updateState, ReqPerEndpoint.valueMap, ReqPerEndpoint.doSnapshot,
    GoMap.set, GoMap.lookD, GoMap.keys, unknownEndpoint, epLog]

/-- C7: an error-rate Update with a present integer status code increments the
resolved endpoint's request count by exactly one, increments its error count
by one iff the code is ≥ 400, and leaves both counts of every other endpoint
(and the snapshot ledger) unchanged. -/
theorem c7_error_rate_update_increments (s : ErrorRatePerEndpoint) (ep? : Option String)
    (c : Int) (d? : Option ℚ) (x : String) (hx : x ≠ resolveEndpoint ep?) :
    s.update ⟨ep?, some c, d?⟩
      = UpdateResult.ok (s.updateState (resolveEndpoint ep?) c) ∧
    GoMap.lookD (s.updateState (resolveEndpoint ep?) c).numReq (resolveEndpoint ep?) 0
      = GoMap.lookD s.numReq (resolveEndpoint ep?) 0 + 1 ∧
    GoMap.lookD (s.updateState (resolveEndpoint ep?) c).errorCount (resolveEndpoint ep?) 0
      = GoMap.lookD s.errorCount (resolveEndpoint ep?) 0 + (if 400 ≤ c then 1 else 0) ∧
    GoMap.lookD (s.updateState (resolveEndpoint ep?) c).numReq x 0
      = GoMap.lookD s.numReq x 0 ∧
    GoMap.lookD (s.updateState (resolveEndpoint ep?) c).errorCount x 0
      = GoMap.lookD s.errorCount x 0 ∧
    (s.updateState (resolveEndpoint ep?) c).snapCount = s.snapCount := by
  refine ⟨rfl, ?_, ?_, ?_, ?_, rfl⟩
  · simp [ErrorRatePerEndpoint.updateState, GoMap.lookD_set_self]
  · by_cases hc : 400 ≤ c
    · simp [ErrorRatePerEndpoint.updateState, hc, GoMap.lookD_set_self]
    · simp [ErrorRatePerEndpoint.updateState, hc]
  · simp [ErrorRatePerEndpoint.updateState, GoMap.lookD_set_ne _ _ _ hx]
  · by_cases hc : 400 ≤ c
    · simp [ErrorRatePerEndpoint.updateState, hc, GoMap.lookD_set_ne _ _ _ hx]
    · simp [ErrorRatePerEndpoint.updateState, hc]

/-- C7 witness: the increment theorem applied to a fresh metric, endpoint
"log", status code 404, spectator endpoint "a". -/
theorem c7_error_rate_update_increments_witness :
    (epA ≠ resolveEndpoint (some epLog)) ∧
    (newErrorRatePerEndpoint.update ⟨some epLog, some 404, none⟩
      = UpdateResult.ok (newErrorRatePerEndpoint.updateState (resolveEndpoint (some epLog)) 404) ∧
    GoMap.lookD (newErrorRatePerEndpoint.updateState (resolveEndpoint (some epLog)) 404).numReq
        (resolveEndpoint (some epLog)) 0
      = GoMap.lookD newErrorRatePerEndpoint.numReq (resolveEndpoint (some epLog)) 0 + 1 ∧
    GoMap.lookD (newErrorRatePerEndpoint.updateState (resolveEndpoint (some epLog)) 404).errorCount
        (resolveEndpoint (some epLog)) 0
      = GoMap.lookD newErrorRatePerEndpoint.errorCount (resolveEndpoint (some epLog)) 0
        + (if 400 ≤ (404 : Int) then 1 else 0) ∧
    GoMap.lookD (newErrorRatePerEndpoint.updateState (resolveEndpoint (some epLog)) 404).numReq
        epA 0
      = GoMap.lookD newErrorRatePerEndpoint.numReq epA 0 ∧
    GoMap.lookD (newErrorRatePerEndpoint.updateState (resolveEndpoint (some epLog)) 404).errorCount
        epA 0
      = GoMap.lookD newErrorRatePerEndpoint.errorCount epA 0 ∧
    (newErrorRatePerEndpoint.updateState (resolveEndpoint (some epLog)) 404).snapCount
      = newErrorRatePerEndpoint.snapCount) :=
  ⟨by decide,
   c7_error_rate_update_increments newErrorRatePerEndpoint (some epLog) 404 none epA (by decide)⟩

/-- C8 counterexample: the claim says the single aggregate entry equals total
errors over total requests summed across all endpoints.  After one successful
request to endpoint "x" and one failing request to endpoint "y" the totals are
1 error and 2 requests (so the claim demands 1/2), but the export loop only
ranges over the keys of the error-count map — "x" never recorded an error, so
its request is dropped from the denominator and the code reports 1. -/
theorem c8_overall_ignores_error_free_endpoints :
    GoMap.lookD (((newErrorRatePerEndpoint.updateState epX 200).updateState epY 404).valueMap).1
        (MName.overall .errorRate) 0 = 1 ∧
    GoMap.lookD ((newErrorRatePerEndpoint.updateState epX 200).updateState epY 404).numReq epX 0
      + GoMap.lookD ((newErrorRatePerEndpoint.updateState epX 200).updateState epY 404).numReq
          epY 0
      + GoMap.lookD ((newErrorRatePerEndpoint.updateState epX 200).updateState epY 404).numReq
          unknownEndpoint 0 = 2 ∧
    GoMap.lookD ((newErrorRatePerEndpoint.updateState epX 200).updateState epY 404).errorCount
        epX 0
      + GoMap.lookD ((newErrorRatePerEndpoint.updateState epX 200).updateState epY 404).errorCount
          epY 0
      + GoMap.lookD ((newErrorRatePerEndpoint.updateState epX 200).updateState epY 404).errorCount
          unknownEndpoint 0 = 1 := by
  refine ⟨?_, by decide, by decide⟩
  norm_num +decide [newErrorRatePerEndpoint, ErrorRatePerEndpoint.updateState,
    ErrorRatePerEndpoint.valueMap, ErrorRatePerEndpoint.doSnapshot,
    ErrorRatePerEndpoint.rateAt, GoMap.set, GoMap.lookD, GoMap.keys,
    unknownEndpoint, epX, epY]

/-- C8 amended: every per-endpoint entry of the error-rate export equals the
summed retained error count over the summed retained request count for that
endpoint (zero-guarded; endpoints without an entry read as 0, which agrees
with the formula since their retained error count is 0); the aggregate entry
equals total retained errors over total retained requests summed over the
endpoints carrying an error-count entry — the sentinel plus every endpoint
with at least one recorded error — rather than across all endpoints. -/
theorem c8_amended_export_formula (s : ErrorRatePerEndpoint) (e : String) :
    GoMap.lookD (s.valueMap).1 (MName.perEndpoint .errorRate e) 0 =
      (if 0 < summedRetainedReq s.doSnapshot e
       then (summedRetainedErr s.doSnapshot e : ℚ) / (summedRetainedReq s.doSnapshot e : ℚ)
       else 0) ∧
    GoMap.lookD (s.valueMap).1 (MName.overall .errorRate) 0 =
      (if 0 < overallReqOnErrKeys s.doSnapshot
       then (overallErrTotal s.doSnapshot : ℚ) / (overallReqOnErrKeys s.doSnapshot : ℚ)
       else 0) := by
  constructor
  · simp only [ErrorRatePerEndpoint.valueMap, GoMap.lookD_append,
      mem_keys_perEndpoint_map, lookD_perEndpoint_map, summedRetainedErr_eq,
      summedRetainedReq_eq]
    by_cases h : e ∈ GoMap.keys s.doSnapshot.errorCount
    · simp [h, ErrorRatePerEndpoint.rateAt]
    · simp [h, GoMap.lookD, GoMap.lookD_of_not_mem 0 h]
  · simp only [ErrorRatePerEndpoint.valueMap, GoMap.lookD_append,
      overall_not_mem_perEndpoint_map, if_false, GoMap.lookD,
      overallErrTotal, overallReqOnErrKeys, summedRetainedErr_eq, summedRetainedReq_eq,
      if_true, reduceCtorEq]

/-- C9: for every metric kind, an Update whose parameter bag has no endpoint
attribute records the event under the sentinel `"other"` (the sentinel's
request count goes up by one), and an Update naming a never-seen-before
endpoint succeeds and creates that endpoint's bucket on first use, with count
1 and no registration step.  The other required attributes are supplied, since
their absence is C5's concern. -/
theorem c9_endpoint_resolution (s1 : ReqPerEndpoint) (s2 : ErrorRatePerEndpoint)
    (s3 : ResponseTimePerEndpoint) (c : Int) (d : ℚ) (e : String)
    (h1 : e ∉ GoMap.keys s1.numReq) (h2 : e ∉ GoMap.keys s2.numReq)
    (h3 : e ∉ GoMap.keys s3.numReq) :
    (s1.update ⟨none, none, none⟩ = UpdateResult.ok (s1.updateState unknownEndpoint) ∧
      GoMap.lookD (s1.updateState unknownEndpoint).numReq unknownEndpoint 0
        = GoMap.lookD s1.numReq unknownEndpoint 0 + 1) ∧
    (s2.update ⟨none, some c, none⟩ = UpdateResult.ok (s2.updateState unknownEndpoint c) ∧
      GoMap.lookD (s2.updateState unknownEndpoint c).numReq unknownEndpoint 0
        = GoMap.lookD s2.numReq unknownEndpoint 0 + 1) ∧
    (s3.update ⟨none, none, some d⟩ = UpdateResult.ok (s3.updateState unknownEndpoint d) ∧
      GoMap.lookD (s3.updateState unknownEndpoint d).numReq unknownEndpoint 0
        = GoMap.lookD s3.numReq unknownEndpoint 0 + 1) ∧
    (s1.update ⟨some e, none, none⟩ = UpdateResult.ok (s1.updateState e) ∧
      e ∈ GoMap.keys (s1.updateState e).numReq ∧
      GoMap.lookD (s1.updateState e).numReq e 0 = 1) ∧
    (s2.update ⟨some e, some c, none⟩ = UpdateResult.ok (s2.updateState e c) ∧
      e ∈ GoMap.keys (s2.updateState e c).numReq ∧
      GoMap.lookD (s2.updateState e c).numReq e 0 = 1) ∧
    (s3.update ⟨some e, none, some d⟩ = UpdateResult.ok (s3.updateState e d) ∧
      e ∈ GoMap.keys (s3.updateState e d).numReq ∧
      GoMap.lookD (s3.updateState e d).numReq e 0 = 1) := by
  refine ⟨⟨rfl, ?_⟩, ⟨rfl, ?_⟩, ⟨rfl, ?_⟩, ⟨rfl, ?_, ?_⟩, ⟨rfl, ?_, ?_⟩, ⟨rfl, ?_, ?_⟩⟩
  · simp [ReqPerEndpoint.updateState, GoMap.lookD_set_self]
  · simp [ErrorRatePerEndpoint.updateState, GoMap.lookD_set_self]
  · simp [ResponseTimePerEndpoint.updateState, GoMap.lookD_set_self]
  · simp only [ReqPerEndpoint.updateState]
    exact GoMap.mem_keys_set_self _ _ _
  · simp [ReqPerEndpoint.updateState, GoMap.lookD_set_self, GoMap.lookD_of_not_mem 0 h1]
  · simp only [ErrorRatePerEndpoint.updateState]
    exact GoMap.mem_keys_set_self _ _ _
  · simp [ErrorRatePerEndpoint.updateState, GoMap.lookD_set_self,
      GoMap.lookD_of_not_mem 0 h2]
  · simp only [ResponseTimePerEndpoint.updateState]
    exact GoMap.mem_keys_set_self _ _ _
  · simp [ResponseTimePerEndpoint.updateState, GoMap.lookD_set_self,
      GoMap.lookD_of_not_mem 0 h3]

/-- C9 witness: the endpoint-resolution theorem applied to the three freshly
constructed metrics, status code 200, elapsed 5 ms, and the never-seen
endpoint "login". -/
theorem c9_endpoint_resolution_witness :
    (epLogin ∉ GoMap.keys newReqPerEndpoint.numReq ∧
     epLogin ∉ GoMap.keys newErrorRatePerEndpoint.numReq ∧
     epLogin ∉ GoMap.keys newResponseTimePerEndpoint.numReq) ∧
    ((newReqPerEndpoint.update ⟨none, none, none⟩
        = UpdateResult.ok (newReqPerEndpoint.updateState unknownEndpoint) ∧
      GoMap.lookD (newReqPerEndpoint.updateState unknownEndpoint).numReq unknownEndpoint 0
        = GoMap.lookD newReqPerEndpoint.numReq unknownEndpoint 0 + 1) ∧
    (newErrorRatePerEndpoint.update ⟨none, some 200, none⟩
        = UpdateResult.ok (newErrorRatePerEndpoint.updateState unknownEndpoint 200) ∧
      GoMap.lookD (newErrorRatePerEndpoint.updateState unknownEndpoint 200).numReq
          unknownEndpoint 0
        = GoMap.lookD newErrorRatePerEndpoint.numReq unknownEndpoint 0 + 1) ∧
    (newResponseTimePerEndpoint.update ⟨none, none, some (5 : ℚ)⟩
        = UpdateResult.ok (newResponseTimePerEndpoint.updateState unknownEndpoint 5) ∧
      GoMap.lookD (newResponseTimePerEndpoint.updateState unknownEndpoint 5).numReq
          unknownEndpoint 0
        = GoMap.lookD newResponseTimePerEndpoint.numReq unknownEndpoint 0 + 1) ∧
    (newReqPerEndpoint.update ⟨some epLogin, none, none⟩
        = UpdateResult.ok (newReqPerEndpoint.updateState epLogin) ∧
      epLogin ∈ GoMap.keys (newReqPerEndpoint.updateState epLogin).numReq ∧
      GoMap.lookD (newReqPerEndpoint.updateState epLogin).numReq epLogin 0 = 1) ∧
    (newErrorRatePerEndpoint.update ⟨some epLogin, some 200, none⟩
        = UpdateResult.ok (newErrorRatePerEndpoint.updateState epLogin 200) ∧
      epLogin ∈ GoMap.keys (newErrorRatePerEndpoint.updateState epLogin 200).numReq ∧
      GoMap.lookD (newErrorRatePerEndpoint.updateState epLogin 200).numReq epLogin 0 = 1) ∧
    (newResponseTimePerEndpoint.update ⟨some epLogin, none, some (5 : ℚ)⟩
        = UpdateResult.ok (newResponseTimePerEndpoint.updateState epLogin 5) ∧
      epLogin ∈ GoMap.keys (newResponseTimePerEndpoint.updateState epLogin 5).numReq ∧
      GoMap.lookD (newResponseTimePerEndpoint.updateState epLogin 5).numReq epLogin 0 = 1)) :=
  ⟨⟨by decide, by decide, by decide⟩,
   c9_endpoint_resolution newReqPerEndpoint newErrorRatePerEndpoint
     newResponseTimePerEndpoint 200 5 epLogin (by decide) (by decide) (by decide)⟩

/-- C10 counterexample: the claim says the export of every state contains a
per-endpoint entry for the `"other"` sentinel.  For the request-count kind the
sentinel key is lost once the accumulator map has been rotated and the ledger
cleared: after Export then Clear, the next Export carries no
`"other"` per-endpoint entry at all. -/
theorem c10_other_entry_lost_after_clear :
    MName.perEndpoint .req unknownEndpoint ∉
      GoMap.keys ((((newReqPerEndpoint.valueMap).2.clear).valueMap).1) := by
  decide

/-- C10 amended: every export of every metric kind contains the overall
aggregate entry — so the mapping is never empty — and on a freshly
constructed metric with no Updates the export also contains the `"other"`
per-endpoint entry, with both entries equal to 0; but (see the
counterexample) the request-count kind can lose the `"other"` entry once an
Export has been followed by Clear. -/
theorem c10_amended_export_nonempty :
    (∀ s : ReqPerEndpoint, MName.overall .req ∈ GoMap.keys (s.valueMap).1) ∧
    (∀ s : ErrorRatePerEndpoint, MName.overall .errorRate ∈ GoMap.keys (s.valueMap).1) ∧
    (∀ s : ResponseTimePerEndpoint, MName.overall .responseTime ∈ GoMap.keys (s.valueMap).1) ∧
    GoMap.lookD (newReqPerEndpoint.valueMap).1 (MName.overall .req) 0 = 0 ∧
    MName.perEndpoint .req unknownEndpoint ∈ GoMap.keys (newReqPerEndpoint.valueMap).1 ∧
    GoMap.lookD (newReqPerEndpoint.valueMap).1 (MName.perEndpoint .req unknownEndpoint) 0 = 0 ∧
    GoMap.lookD (newErrorRatePerEndpoint.valueMap).1 (MName.overall .errorRate) 0 = 0 ∧
    MName.perEndpoint .errorRate unknownEndpoint
      ∈ GoMap.keys (newErrorRatePerEndpoint.valueMap).1 ∧
    GoMap.lookD (newErrorRatePerEndpoint.valueMap).1
      (MName.perEndpoint .errorRate unknownEndpoint) 0 = 0 ∧
    GoMap.lookD (newResponseTimePerEndpoint.valueMap).1 (MName.overall .responseTime) 0 = 0 ∧
    MName.perEndpoint .responseTime unknownEndpoint
      ∈ GoMap.keys (newResponseTimePerEndpoint.valueMap).1 ∧
    GoMap.lookD (newResponseTimePerEndpoint.valueMap).1
      (MName.perEndpoint .responseTime unknownEndpoint) 0 = 0 := by
  refine ⟨?_, ?_, ?_, ?_, by decide, ?_, ?_, by decide, ?_, ?_, by decide, ?_⟩
  · intro s
    simp only [ReqPerEndpoint.valueMap]
    exact GoMap.mem_keys_set_self _ _ _
  · intro s
    simp [ErrorRatePerEndpoint.valueMap, GoMap.keys_append, GoMap.keys]
  · intro s
    simp [ResponseTimePerEndpoint.valueMap, GoMap.keys_append, GoMap.keys]
  · norm_num +decide [newReqPerEndpoint, ReqPerEndpoint.valueMap,
      ReqPerEndpoint.doSnapshot, GoMap.set, GoMap.lookD, unknownEndpoint]
  · norm_num +decide [newReqPerEndpoint, ReqPerEndpoint.valueMap,
      ReqPerEndpoint.doSnapshot, GoMap.set, GoMap.lookD, unknownEndpoint]
  · norm_num +decide [newErrorRatePerEndpoint, ErrorRatePerEndpoint.valueMap,
      ErrorRatePerEndpoint.doSnapshot, ErrorRatePerEndpoint.rateAt, GoMap.set,
      GoMap.lookD, GoMap.keys, unknownEndpoint]
  · norm_num +decide [newErrorRatePerEndpoint, ErrorRatePerEndpoint.valueMap,
      ErrorRatePerEndpoint.doSnapshot, ErrorRatePerEndpoint.rateAt, GoMap.set,
      GoMap.lookD, GoMap.keys, unknownEndpoint]
  · norm_num +decide [newResponseTimePerEndpoint, ResponseTimePerEndpoint.valueMap,
      GoMap.set, GoMap.lookD, GoMap.keys, unknownEndpoint]
  · norm_num +decide [newResponseTimePerEndpoint, ResponseTimePerEndpoint.valueMap,
      GoMap.set, GoMap.lookD, GoMap.keys, unknownEndpoint]

end SimpleRelic
